import Mathlib

/-!
Verification development for prometheus-launchpad-exporter.

Shallow embedding of the core state-tracking and aggregation logic of
`src/prometheus_launchpad_exporter/ubuntu.py`, `launchpad.py` and
`metrics.py`.  Remote-API results (published sources, build records,
binary publications, queue contents) are passed in as explicit inputs,
since the code treats the remote archive client as an external
collaborator.  Python dictionaries are embedded as association lists
with Python's replace-or-append update semantics; datetimes are `Nat`
timestamps; object identity of `SourcePackage` instances is embedded as
a freshly allocated numeric id.
-/

set_option autoImplicit false

namespace LaunchpadExporter

/-- Lookup in an association list with string keys, first match wins
(Python `dict.get`). -/
def lookupS {β : Type} : List (String × β) → String → Option β
  | [], _ => none
  | e :: rest, k => if e.1 = k then some e.2 else lookupS rest k

/-- Does the association list contain the key (Python `in` on a dict)? -/
def hasKey {β : Type} (m : List (String × β)) (k : String) : Bool :=
  m.any (fun e => decide (e.1 = k))

/-- Python `d[k] = v` on a dict: replace the binding in place if the key
is present, otherwise append it (insertion order preserved). -/
def dictSet {β : Type} (m : List (String × β)) (k : String) (v : β) :
    List (String × β) :=
  if hasKey m k then m.map (fun e => if e.1 = k then (k, v) else e)
  else m ++ [(k, v)]

/-- Python `d.update(d2)`: set each binding of `d2` in `d` in order. -/
def dictUpdate {β : Type} (m add : List (String × β)) : List (String × β) :=
  add.foldl (fun acc e => dictSet acc e.1 e.2) m


/-! ## Source tracker: `SourcePackage` (ubuntu.py)

`_last_time_checked` and `_build_status` are per-pocket dictionaries; the
per-pocket refresh `_fetch_latest_build_status_pocket` only touches the
slice of both dictionaries at its pocket, so the embedding carries that
slice as `PocketState`.  The remote results the routine consumes — the
latest published source (`lp.get_published_sources(...)[0]`, absent on
`IndexError`), the outcome of `latest_spph.getBuilds()` (a record list,
or an `Unauthorized` exception), and `latest_spph.getPublishedBinaries()`
— are explicit inputs. -/

/-- Fields of a source-package publishing history entry that the code
reads: `date_created` (a timestamp) and `source_package_version`. -/
structure SPPH where
  date_created : Nat
  source_package_version : String
deriving DecidableEq

/-- Fields of a binary publishing history entry that the code reads,
through `bpph.build`: `arch_tag` and `buildstate`. -/
structure BPPH where
  arch_tag : String
  buildstate : String
deriving DecidableEq

/-- Outcome of `latest_spph.getBuilds()`: either the call raises
`lazr.restfulclient.errors.Unauthorized`, or it returns a list of build
records, each read as `(arch_tag, buildstate)`. -/
inductive BuildsOutcome where
  | unauthorized : BuildsOutcome
  | records : List (String × String) → BuildsOutcome
deriving DecidableEq

/-- The slice of a `SourcePackage`'s state at one pocket:
`_last_time_checked.get(pocket)` and `_build_status[pocket]`, the latter
mapping an architecture to a `(version, state)` pair. -/
structure PocketState where
  last_time_checked : Option Nat
  build_status : List (String × String × String)
deriving DecidableEq

/-- `SourcePackage._any_builds_not_successful(pocket)`: is any recorded
state for the pocket different from "Successfully built"? -/
def any_builds_not_successful (bs : List (String × String × String)) : Bool :=
  bs.any (fun e => decide (e.2.2 ≠ "Successfully built"))

/-- Result of one per-pocket refresh: the new pocket slice, plus whether
`latest_spph.getBuilds()` was invoked (it is invoked exactly when control
reaches the `try` block at line 84 of ubuntu.py). -/
structure FetchResult where
  state : PocketState
  buildFetchInvoked : Bool
deriving DecidableEq

/-- The `for bpph in bpphs` loop of `_fetch_latest_build_status_pocket`:
walk the binary publications, skipping architectures already in
`seen_arches`, and record `(version, buildstate)` for each new one. -/
def bpphLoop (version : String) :
    List BPPH → List (String × String × String) → List String →
      List (String × String × String)
  | [], m, _ => m
  | b :: rest, m, seen =>
    if b.arch_tag ∈ seen then bpphLoop version rest m seen
    else
      bpphLoop version rest (dictSet m b.arch_tag (version, b.buildstate))
        (b.arch_tag :: seen)

/-- `SourcePackage._fetch_latest_build_status_pocket(pocket, local)`.
`published` is `lp.get_published_sources(pocket, name, series,
last_time_checked.get(pocket))[0]`, `none` when the list is empty
(`IndexError`); `builds` is the outcome of `getBuilds()`; `bpphs` is
`getPublishedBinaries()`.  Note the Python comparison
`latest_spph.date_created == self._last_time_checked.get(pocket, None)`
is false whenever the stored value is `None`. -/
def fetch_latest_build_status_pocket (st : PocketState) (published : Option SPPH)
    (builds : BuildsOutcome) (bpphs : List BPPH) : FetchResult :=
  match published with
  | none => ⟨st, false⟩
  | some spph =>
    if some spph.date_created = st.last_time_checked ∧
        any_builds_not_successful st.build_status = false then
      ⟨st, false⟩
    else
      match builds with
      | .unauthorized => ⟨⟨some spph.date_created, st.build_status⟩, true⟩
      | .records rs =>
        if 0 < rs.length then
          ⟨⟨some spph.date_created,
            rs.foldl
              (fun m r => dictSet m r.1 (spph.source_package_version, r.2))
              st.build_status⟩, true⟩
        else
          ⟨⟨some spph.date_created,
            bpphLoop spph.source_package_version bpphs st.build_status []⟩,
            true⟩

/-- `SourcePackage.get_failed_builds()`: per pocket, keep only the
entries whose state is "Failed to build". -/
def get_failed_builds
    (bs : List (String × List (String × String × String))) :
    List (String × List (String × String × String)) :=
  bs.map (fun pm =>
    (pm.1, pm.2.filter (fun e => decide (e.2.2 = "Failed to build"))))

/-! ## Concurrent aggregator: `UbuntuMetrics.populate_packageset_maps`

Each worker task (`fetch_packageset_for_series`) starts from an empty
local `source_map` and, for each member source, looks up
`self._series_source_map[series_name].get(source, source_map.get(source))`
— i.e. the instance map as it was *before* the populate run began
(`populate_packageset_maps` only assigns the freshly built maps to the
instance attributes after all tasks have completed), falling back to the
task-local map.  Tasks never write to shared state, so every thread
schedule computes the same per-task results, and `executor.map` merges
them in submission order; the embedding is that sequential merge.
Object identity of a freshly constructed `SourcePackage` is embedded as
a fresh numeric id drawn from a counter threaded through the tasks. -/

/-- A `SourcePackage` object: `id` stands for Python object identity,
`name` is the constructor's `name` argument. -/
structure SP where
  id : Nat
  name : String
deriving DecidableEq

/-- Python `set().add`: a set of `SourcePackage` objects (identity
semantics). -/
def setAdd (ps : List SP) (sp : SP) : List SP :=
  if sp ∈ ps then ps else ps ++ [sp]

/-- The `for source in sources` loop of `fetch_packageset_for_series`:
`oldMap` is `self._series_source_map[series_name]` as of the start of the
populate run, `sm` the task-local `source_map`, `ps` the task-local
packageset set, `ctr` the fresh-identity counter. -/
def fetchTaskGo (oldMap : List (String × SP)) :
    List String → List (String × SP) → List SP → Nat →
      List (String × SP) × List SP × Nat
  | [], sm, ps, ctr => (sm, ps, ctr)
  | src :: rest, sm, ps, ctr =>
    match lookupS oldMap src with
    | some sp => fetchTaskGo oldMap rest (dictSet sm src sp) (setAdd ps sp) ctr
    | none =>
      match lookupS sm src with
      | some sp =>
        fetchTaskGo oldMap rest (dictSet sm src sp) (setAdd ps sp) ctr
      | none =>
        fetchTaskGo oldMap rest (dictSet sm src ⟨ctr, src⟩)
          (setAdd ps ⟨ctr, src⟩) (ctr + 1)

/-- One worker task, `UbuntuMetrics.fetch_packageset_for_series`: returns
the task's `(source_map, packageset set)` and the advanced counter. -/
def fetch_packageset_for_series (oldMap : List (String × SP))
    (sources : List String) (ctr : Nat) :
    List (String × SP) × List SP × Nat :=
  fetchTaskGo oldMap sources [] [] ctr

/-- `UbuntuMetrics.populate_packageset_maps` restricted to one series:
run one task per packageset (given as `(name, member sources)`), then
merge each task's results into the freshly created
`series_source_map[series_name]` (a dict update) and
`series_packageset_source_map[series_name]` (binding the packageset name
to the task's set).  Returns the new (source map, packageset map). -/
def populate_packageset_maps (oldMap : List (String × SP))
    (packagesets : List (String × List String)) :
    List (String × SP) × List (String × List SP) :=
  let r := packagesets.foldl
    (fun (acc : List (String × SP) × List (String × List SP) × Nat) ps =>
      let t := fetch_packageset_for_series oldMap ps.2 acc.2.2
      (dictUpdate acc.1 t.1, dictSet acc.2.1 ps.1 t.2.1, t.2.2))
    ([], [], 0)
  (r.1, r.2.1)

/-! ## Resource cache (launchpad.py)

The `cachetools.cachedmethod`-decorated lookups: each cache is a
key-value store whose entries carry their insertion time; a TTL cache
considers an entry live while `now < insertion + ttl` and a lookup past
that point behaves as a miss (cachetools expires an entry exactly at
`insertion + ttl`).  On a miss the decorated method body runs and its
result is stored with the current time.  Values here are the
packageset-source lists (`get_packageset_sources`), the kind the claim
exercises. -/

/-- A TTL cache lookup: the stored value if the entry exists and is
live, otherwise `none`. -/
def cacheLookup (entries : List (String × List String × Nat)) (ttl now : Nat)
    (k : String) : Option (List String) :=
  match lookupS entries k with
  | some vt => if now < vt.2 + ttl then some vt.1 else none
  | none => none

/-- The `cachetools.cachedmethod` contract around a method body
(`compute`): return a live cached value without running the body,
otherwise run the body, store its result at the current time, and return
it.  The third component records whether the body was invoked. -/
def get_or_compute (entries : List (String × List String × Nat))
    (ttl now : Nat) (k : String) (compute : Unit → List String) :
    List String × List (String × List String × Nat) × Bool :=
  match cacheLookup entries ttl now k with
  | some v => (v, entries, false)
  | none => (compute (), dictSet entries k (compute (), now), true)

/-- `LP.__init__`: `packageset_sources_cache = cachetools.TTLCache(maxsize=512,
ttl=60 * 60)` — the 60-minute limit, in seconds. -/
def packageset_sources_ttl : Nat := 60 * 60

/-- A packageset-sources cache state with one entry computed at t0 = 100:
the second component of `get_or_compute` on the empty cache. -/
def pssCacheAtT0 : List (String × List String × Nat) :=
  (get_or_compute [] packageset_sources_ttl 100 "noble/desktop"
    (fun _ => ["pkg-a", "pkg-b"])).2.1

/-! ## Queues: `UbuntuMetrics.fetch_queues` -/

/-- The pocket tuple iterated by `fetch_queues` (and by
`fetch_latest_build_status`, in its own order). -/
def ubuntu_pockets : List String :=
  ["Release", "Security", "Updates", "Proposed", "Backports"]

/-- The status tuple iterated by `fetch_queues`. -/
def queue_statuses : List String := ["New", "Unapproved"]

/-- `UbuntuMetrics.fetch_queues`: for each series under consideration,
for each status and pocket, store `len(lp.get_queue(series, status,
pocket))` at `ret[series][pocket][status]`.  `queueLen` is the remote
queue length, applied as `queueLen series status pocket`.  The result
lists every assignment made, keyed `(series, pocket, status)`. -/
def fetch_queues (seriesNames : List String)
    (queueLen : String → String → String → Nat) :
    List ((String × String × String) × Nat) :=
  seriesNames.flatMap (fun s =>
    queue_statuses.flatMap (fun status =>
      ubuntu_pockets.map (fun pocket =>
        ((s, pocket, status), queueLen s status pocket))))

/-- The final `self._series_queue_count_map = ret` assignment: the new
map replaces the old one wholesale, so the result is independent of the
previous map `old`. -/
def fetch_queues_update (_old : List ((String × String × String) × Nat))
    (seriesNames : List String) (queueLen : String → String → String → Nat) :
    List ((String × String × String) × Nat) :=
  fetch_queues seriesNames queueLen

/-! ## Failed-build aggregation (`Metrics.update_packageset_count_metrics`) -/

/-- The increments `failed_builds[pocket][arch] += 1` performed for one
source: one `(pocket, arch)` per entry of its `get_failed_builds()`. -/
def failed_increments (fbs : List (String × List (String × String × String))) :
    List (String × String) :=
  fbs.flatMap (fun pm => pm.2.map (fun e => (pm.1, e.1)))

/-- The aggregated failed-build counter at `(pocket, arch)`: the number
of `+= 1` increments across the given sources' build-status maps. -/
def failed_builds_count
    (sources : List (List (String × List (String × String × String))))
    (pocket arch : String) : Nat :=
  (sources.flatMap (fun s => failed_increments (get_failed_builds s))).count
    (pocket, arch)

/-! ## Constructor arity (`Metrics.__init__`, metrics.py lines 30-56)

`Metrics.__init__` runs, in order: `LP(log)` (signature `LP.__init__(self,
log, cache_dir=None)`, one required argument), `UbuntuMetrics(log,
series)` (signature `UbuntuMetrics.__init__(self, log, series,
packagesets)`, three required arguments), then `Service()` and the three
`Gauge(name, doc)` constructions.  A Python call with fewer positional
arguments than required parameters raises `TypeError` before the callee
body runs. -/

/-- One constructor call: its callee, the number of required positional
parameters of the callee (excluding `self`), and the number of
positional arguments supplied at the call site. -/
structure PyCall where
  callee : String
  requiredParams : Nat
  positionalArgs : Nat
deriving DecidableEq

/-- The constructor calls of `Metrics.__init__`, in source order. -/
def metrics_init_calls : List PyCall :=
  [⟨"LP", 1, 1⟩,
   ⟨"UbuntuMetrics", 3, 2⟩,
   ⟨"Service", 0, 0⟩,
   ⟨"Gauge packageset_number_packages", 2, 2⟩,
   ⟨"Gauge packageset_failed_builds", 2, 2⟩,
   ⟨"Gauge queue_number_packages", 2, 2⟩]

/-- Run a call sequence: stop with `TypeError` at the first call whose
positional-argument count differs from its required-parameter count. -/
def run_init : List PyCall → Except String Unit
  | [] => .ok ()
  | c :: rest =>
    if c.positionalArgs = c.requiredParams then run_init rest
    else .error ("TypeError in call to " ++ c.callee)

/-! ## Helper lemmas -/

theorem lookupS_append {β : Type} (m n : List (String × β)) (a : String) :
    lookupS (m ++ n) a =
      match lookupS m a with
      | some v => some v
      | none => lookupS n a := by
  induction m with
  | nil => rfl
  | cons e rest ih =>
    by_cases h : e.1 = a
    · simp [lookupS, h]
    · simp [lookupS, h, ih]

theorem lookupS_of_hasKey_false {β : Type} (m : List (String × β)) (k : String)
    (h : hasKey m k = false) : lookupS m k = none := by
  induction m with
  | nil => rfl
  | cons e rest ih =>
    simp only [hasKey, List.any_cons, Bool.or_eq_false_iff, decide_eq_false_iff_not] at h
    simp [lookupS, h.1, ih (by simp [hasKey, h.2])]

theorem lookupS_map_replace_ne {β : Type} (m : List (String × β)) (k : String)
    (v : β) (a : String) (hak : a ≠ k) :
    lookupS (m.map (fun e => if e.1 = k then (k, v) else e)) a = lookupS m a := by
  induction m with
  | nil => rfl
  | cons e rest ih =>
    by_cases hek : e.1 = k
    · have h1 : k ≠ a := fun h => hak h.symm
      have h2 : e.1 ≠ a := by rw [hek]; exact h1
      simp [lookupS, hek, h1, h2, ih]
    · by_cases hea : e.1 = a
      · simp [lookupS, hek, hea, hak]
      · simp [lookupS, hek, hea, ih]

theorem lookupS_map_replace_eq {β : Type} (m : List (String × β)) (k : String)
    (v : β) :
    lookupS (m.map (fun e => if e.1 = k then (k, v) else e)) k =
      if hasKey m k then some v else none := by
  induction m with
  | nil => rfl
  | cons e rest ih =>
    by_cases hek : e.1 = k
    · simp [lookupS, hek, hasKey, List.any_cons]
    · simp only [List.map_cons, if_neg hek, lookupS]
      rw [ih]
      simp only [hasKey, List.any_cons]
      have hd : decide (e.1 = k) = false := by simp [hek]
      simp only [hd, Bool.false_or]

/-- The characteristic property of Python dict assignment. -/
theorem lookupS_dictSet {β : Type} (m : List (String × β)) (k : String) (v : β)
    (a : String) :
    lookupS (dictSet m k v) a = if a = k then some v else lookupS m a := by
  unfold dictSet
  by_cases hk : hasKey m k
  · rw [if_pos hk]
    by_cases hak : a = k
    · subst hak; rw [lookupS_map_replace_eq, if_pos hk, if_pos rfl]
    · rw [lookupS_map_replace_ne m k v a hak, if_neg hak]
  · rw [if_neg hk]
    rw [lookupS_append]
    by_cases hak : a = k
    · subst hak
      rw [lookupS_of_hasKey_false m a (by simpa using hk)]
      simp [lookupS]
    · cases hma : lookupS m a with
      | some w => simp [hma, hak]
      | none => simp [lookupS, hma, hak, Ne.symm hak]

theorem lookupS_bpphLoop (version a : String) (bs : List BPPH) :
    ∀ (m : List (String × String × String)) (seen : List String),
      lookupS (bpphLoop version bs m seen) a =
        if a ∈ seen then lookupS m a
        else
          match bs.find? (fun b => b.arch_tag == a) with
          | some b => some (version, b.buildstate)
          | none => lookupS m a := by
  induction bs with
  | nil =>
    intro m seen
    simp [bpphLoop, List.find?]
  | cons b rest ih =>
    intro m seen
    by_cases hb : b.arch_tag ∈ seen
    · rw [bpphLoop, if_pos hb, ih]
      by_cases ha : a ∈ seen
      · rw [if_pos ha, if_pos ha]
      · rw [if_neg ha, if_neg ha]
        have hba : ¬((fun x : BPPH => x.arch_tag == a) b = true) := by
          simp only [beq_iff_eq]
          intro h
          exact ha (h ▸ hb)
        rw [@List.find?_cons_of_neg BPPH (fun x => x.arch_tag == a) b rest hba]
    · rw [bpphLoop, if_neg hb, ih]
      by_cases hab : a = b.arch_tag
      · have hseen : a ∈ b.arch_tag :: seen := by
          rw [hab]; exact List.mem_cons_self _ _
        have hnot : ¬ a ∈ seen := fun h => hb (hab ▸ h)
        rw [if_pos hseen, if_neg hnot, lookupS_dictSet, if_pos hab,
          @List.find?_cons_of_pos BPPH (fun x => x.arch_tag == a) b rest
            (by simp [hab])]
      · have hfind : ((b :: rest).find? (fun x => x.arch_tag == a)) =
            rest.find? (fun x => x.arch_tag == a) :=
          @List.find?_cons_of_neg BPPH (fun x => x.arch_tag == a) b rest
            (by simp only [beq_iff_eq]; exact fun h => hab h.symm)
        rw [hfind]
        by_cases ha : a ∈ seen
        · have : a ∈ b.arch_tag :: seen := List.mem_cons_of_mem _ ha
          rw [if_pos this, if_pos ha, lookupS_dictSet, if_neg hab]
        · have : ¬ a ∈ b.arch_tag :: seen := by
            simp [List.mem_cons, hab, ha]
          rw [if_neg this, if_neg ha]
          cases hf : rest.find? (fun x => x.arch_tag == a) with
          | some b2 => rfl
          | none => rw [lookupS_dictSet, if_neg hab]

theorem any_builds_not_successful_eq_false
    (bs : List (String × String × String))
    (hall : ∀ e ∈ bs, e.2.2 = "Successfully built") :
    any_builds_not_successful bs = false := by
  simp only [any_builds_not_successful, List.any_eq_false, decide_eq_true_eq]
  intro e he
  simp [hall e he]

theorem skip_of_unchanged_and_successful (st : PocketState) (spph : SPPH)
    (builds : BuildsOutcome) (bpphs : List BPPH)
    (hd : some spph.date_created = st.last_time_checked)
    (hany : any_builds_not_successful st.build_status = false) :
    fetch_latest_build_status_pocket st (some spph) builds bpphs =
      ⟨st, false⟩ := by
  simp only [fetch_latest_build_status_pocket]
  rw [if_pos ⟨hd, hany⟩]

theorem not_skipped_last_time_checked (st : PocketState) (spph : SPPH)
    (builds : BuildsOutcome) (bpphs : List BPPH)
    (hs : ¬(some spph.date_created = st.last_time_checked ∧
        any_builds_not_successful st.build_status = false)) :
    (fetch_latest_build_status_pocket st (some spph) builds
        bpphs).state.last_time_checked = some spph.date_created := by
  simp only [fetch_latest_build_status_pocket]
  rw [if_neg hs]
  cases builds with
  | unauthorized => rfl
  | records rs =>
    by_cases hr : 0 < rs.length
    · simp [hr]
    · simp [hr]

/-! ## Claim theorems -/

/-- Claim C1 (code_bug evidence): on the first populate run (empty prior
per-series map), two packagesets "p1" and "p2" that both contain the
source "foo" end up referencing two *different* SourcePackage objects —
the task for "p1" creates object 0, the task for "p2" creates object 1
(each task dedups only against its own local `source_map` and the
pre-populate instance map, which is empty) — and the per-series
name-to-package map keeps only the later object.  This contradicts the
claim that exactly one object is held and referenced by both. -/
theorem C1_first_cycle_dedup_failure :
    lookupS (populate_packageset_maps [] [("p1", ["foo"]), ("p2", ["foo"])]).2
        "p1" = some [⟨0, "foo"⟩] ∧
    lookupS (populate_packageset_maps [] [("p1", ["foo"]), ("p2", ["foo"])]).2
        "p2" = some [⟨1, "foo"⟩] ∧
    (⟨0, "foo"⟩ : SP) ≠ ⟨1, "foo"⟩ ∧
    lookupS (populate_packageset_maps [] [("p1", ["foo"]), ("p2", ["foo"])]).1
        "foo" = some ⟨1, "foo"⟩ := by decide

/-- Claim C2 counterexample: with stored last-checked timestamp 5 and a
latest publication created at 7, an `Unauthorized` failure of the
build-record fetch does *not* leave the whole pocket state unchanged —
the stored last-checked timestamp has already been updated to 7 (line 82
of ubuntu.py runs before the `try` around `getBuilds()`). -/
theorem C2_counterexample :
    (fetch_latest_build_status_pocket
        ⟨some 5, [("amd64", ("1.0", "Successfully built"))]⟩
        (some ⟨7, "1.1"⟩) BuildsOutcome.unauthorized []).state.last_time_checked
      = some 7 ∧ some 7 ≠ (some 5 : Option Nat) := by decide

/-- Claim C2 (amended): when the build-record fetch fails with
`Unauthorized`, the per-pocket refresh leaves the stored build statuses
unchanged for that cycle and does not raise, but the stored last-checked
timestamp is either unchanged (when the skip branch was taken the fetch
never runs; included here for totality) or already updated to the
observed publication's creation time. -/
theorem C2_unauthorized_amended (st : PocketState) (spph : SPPH)
    (bpphs : List BPPH) :
    (fetch_latest_build_status_pocket st (some spph) BuildsOutcome.unauthorized
        bpphs).state.build_status = st.build_status ∧
    ((fetch_latest_build_status_pocket st (some spph) BuildsOutcome.unauthorized
        bpphs).state.last_time_checked = st.last_time_checked ∨
      (fetch_latest_build_status_pocket st (some spph) BuildsOutcome.unauthorized
        bpphs).state.last_time_checked = some spph.date_created) := by
  simp only [fetch_latest_build_status_pocket]
  by_cases h : some spph.date_created = st.last_time_checked ∧
      any_builds_not_successful st.build_status = false
  · rw [if_pos h]
    exact ⟨rfl, Or.inl rfl⟩
  · rw [if_neg h]
    exact ⟨rfl, Or.inr rfl⟩

/-- Claim C3: if the latest publication's creation timestamp equals the
stored last-checked timestamp T and every stored build state for the
pocket is "Successfully built", the per-pocket refresh is a no-op: the
pocket state is returned unchanged and `getBuilds()` is not invoked. -/
theorem C3_idempotent_skip (st : PocketState) (spph : SPPH)
    (builds : BuildsOutcome) (bpphs : List BPPH) (T : Nat)
    (hT : st.last_time_checked = some T) (hdate : spph.date_created = T)
    (hall : ∀ e ∈ st.build_status, e.2.2 = "Successfully built") :
    fetch_latest_build_status_pocket st (some spph) builds bpphs =
      ⟨st, false⟩ :=
  skip_of_unchanged_and_successful st spph builds bpphs
    (by rw [hdate, hT]) (any_builds_not_successful_eq_false _ hall)

/-- Witness for C3 at a concrete input: pocket state with last-checked 5
and one successfully built architecture, publication also created at 5. -/
theorem C3_witness :
    fetch_latest_build_status_pocket
        ⟨some 5, [("amd64", ("1.0", "Successfully built"))]⟩ (some ⟨5, "1.0"⟩)
        (BuildsOutcome.records [("amd64", "Failed to build")]) [] =
      ⟨⟨some 5, [("amd64", ("1.0", "Successfully built"))]⟩, false⟩ :=
  C3_idempotent_skip ⟨some 5, [("amd64", ("1.0", "Successfully built"))]⟩
    ⟨5, "1.0"⟩ (BuildsOutcome.records [("amd64", "Failed to build")]) [] 5
    rfl rfl (by decide)

/-- Claim C4: when the publication's build-record list is empty (and the
refresh is not skipped), the refresh walks the binary publications and
records, per architecture, the publication's version together with the
build state of the *first* binary seen for that architecture; later
binaries for an already-seen architecture are ignored, and architectures
with no binary keep their previous entry. -/
theorem C4_binary_fallback_first_wins (st : PocketState) (spph : SPPH)
    (bpphs : List BPPH)
    (hskip : ¬(some spph.date_created = st.last_time_checked ∧
        any_builds_not_successful st.build_status = false)) :
    (fetch_latest_build_status_pocket st (some spph)
        (BuildsOutcome.records []) bpphs).state.last_time_checked =
      some spph.date_created ∧
    ∀ a, lookupS (fetch_latest_build_status_pocket st (some spph)
        (BuildsOutcome.records []) bpphs).state.build_status a =
      match bpphs.find? (fun b => b.arch_tag == a) with
      | some b => some (spph.source_package_version, b.buildstate)
      | none => lookupS st.build_status a := by
  have hred : fetch_latest_build_status_pocket st (some spph)
      (BuildsOutcome.records []) bpphs =
      ⟨⟨some spph.date_created,
        bpphLoop spph.source_package_version bpphs st.build_status []⟩,
        true⟩ := by
    simp only [fetch_latest_build_status_pocket]
    rw [if_neg hskip]
    rfl
  rw [hred]
  refine ⟨rfl, fun a => ?_⟩
  rw [lookupS_bpphLoop]
  simp

/-- Witness for C4: three binary publications, two for amd64 ("Failed to
build" first), one for arm64; the recorded amd64 entry is the first
occurrence. -/
theorem C4_witness :
    lookupS (fetch_latest_build_status_pocket ⟨some 3, []⟩ (some ⟨7, "2.0"⟩)
        (BuildsOutcome.records [])
        [⟨"amd64", "Failed to build"⟩, ⟨"amd64", "Successfully built"⟩,
          ⟨"arm64", "Successfully built"⟩]).state.build_status "amd64" =
      some ("2.0", "Failed to build") := by
  have h := (C4_binary_fallback_first_wins ⟨some 3, []⟩ ⟨7, "2.0"⟩
    [⟨"amd64", "Failed to build"⟩, ⟨"amd64", "Successfully built"⟩,
      ⟨"arm64", "Successfully built"⟩] (by decide)).2 "amd64"
  rw [h]
  decide

/-- Claim C5: assuming the remote query only returns publications
created at or after the supplied `created_since_date` (which the code
passes as the stored last-checked timestamp), a refresh that changes any
stored build-status entry observed a publication whose creation
timestamp is at least the previously stored last-checked timestamp; and
the stored last-checked timestamp never decreases across a refresh. -/
theorem C5_timestamp_monotone (st : PocketState) (published : Option SPPH)
    (builds : BuildsOutcome) (bpphs : List BPPH)
    (hsince : ∀ spph t, published = some spph →
      st.last_time_checked = some t → t ≤ spph.date_created) :
    (∀ a, lookupS (fetch_latest_build_status_pocket st published builds
          bpphs).state.build_status a ≠ lookupS st.build_status a →
      ∃ spph, published = some spph ∧
        ∀ t, st.last_time_checked = some t → t ≤ spph.date_created) ∧
    (∀ t u, st.last_time_checked = some t →
      (fetch_latest_build_status_pocket st published builds
          bpphs).state.last_time_checked = some u → t ≤ u) := by
  cases published with
  | none =>
    refine ⟨fun a hne => absurd rfl hne, fun t u ht hu => ?_⟩
    simp only [fetch_latest_build_status_pocket] at hu
    rw [ht] at hu
    cases hu
    exact Nat.le_refl t
  | some spph =>
    refine ⟨fun a _ => ⟨spph, rfl, fun t ht => hsince spph t rfl ht⟩,
      fun t u ht hu => ?_⟩
    by_cases hs : some spph.date_created = st.last_time_checked ∧
        any_builds_not_successful st.build_status = false
    · rw [skip_of_unchanged_and_successful st spph builds bpphs hs.1 hs.2]
        at hu
      rw [ht] at hu
      cases hu
      exact Nat.le_refl t
    · rw [not_skipped_last_time_checked st spph builds bpphs hs] at hu
      cases hu
      exact hsince spph t rfl ht

/-- Witness for C5 at a concrete input: stored timestamp 3, publication
created at 7, a build record overwriting amd64; the query contract holds
and the new stored timestamp 7 is at least 3. -/
theorem C5_witness : (3 : Nat) ≤ 7 := by
  have h := (C5_timestamp_monotone ⟨some 3, []⟩ (some ⟨7, "2.0"⟩)
    (BuildsOutcome.records [("amd64", "Successfully built")]) []
    (by intro spph t hp ht
        cases hp
        cases ht
        decide)).2 3 7 rfl (by decide)
  exact h

/-- Claim C10: `_any_builds_not_successful` is vacuously false on a
pocket with no recorded build-status entries, so a per-pocket refresh
that observes an unchanged publication timestamp takes the idempotent
skip — returning the state unchanged without invoking the build-record
fetch — even though no build state was ever recorded for the pocket. -/
theorem C10_empty_pocket_vacuous_skip (st : PocketState) (spph : SPPH)
    (builds : BuildsOutcome) (bpphs : List BPPH) (T : Nat)
    (hempty : st.build_status = []) (hT : st.last_time_checked = some T)
    (hdate : spph.date_created = T) :
    any_builds_not_successful st.build_status = false ∧
    fetch_latest_build_status_pocket st (some spph) builds bpphs =
      ⟨st, false⟩ := by
  have hany : any_builds_not_successful st.build_status = false := by
    rw [hempty]; rfl
  exact ⟨hany, skip_of_unchanged_and_successful st spph builds bpphs
    (by rw [hdate, hT]) hany⟩

/-- Witness for C10: a pocket whose build-status map is empty (for
example after a cycle in which the timestamp was stored but the
build-record fetch was rejected) with an unchanged publication
timestamp. -/
theorem C10_witness :
    any_builds_not_successful ([] : List (String × String × String)) = false ∧
    fetch_latest_build_status_pocket ⟨some 9, []⟩ (some ⟨9, "3.0"⟩)
        (BuildsOutcome.records [("amd64", "Failed to build")]) [] =
      ⟨⟨some 9, []⟩, false⟩ :=
  C10_empty_pocket_vacuous_skip ⟨some 9, []⟩ ⟨9, "3.0"⟩
    (BuildsOutcome.records [("amd64", "Failed to build")]) [] 9 rfl rfl rfl

/-- Claim C6: the cache contract — a live (present, non-expired) entry
is returned without invoking the compute function; a lookup with no live
entry invokes the compute function, stores its result at the current
time, and returns it; no TTL lookup ever returns an entry at or past its
configured expiry; and concretely, a packageset-sources entry (60-minute
limit, i.e. ttl 3600 s) inserted at t0 = 100 is returned from the cache
at t0+30 min without recomputing and is freshly recomputed at
t0+61 min. -/
theorem C6_cache_contract (entries : List (String × List String × Nat))
    (ttl now : Nat) (k : String) (compute : Unit → List String) :
    (∀ v, cacheLookup entries ttl now k = some v →
      get_or_compute entries ttl now k compute = (v, entries, false)) ∧
    (cacheLookup entries ttl now k = none →
      get_or_compute entries ttl now k compute =
        (compute (), dictSet entries k (compute (), now), true)) ∧
    (∀ v tIns, lookupS entries k = some (v, tIns) → tIns + ttl ≤ now →
      cacheLookup entries ttl now k = none) ∧
    (get_or_compute [] packageset_sources_ttl 100 "noble/desktop"
        (fun _ => ["pkg-a", "pkg-b"])).2.2 = true ∧
    get_or_compute pssCacheAtT0 packageset_sources_ttl 1900 "noble/desktop"
        (fun _ => ["FRESH"]) = (["pkg-a", "pkg-b"], pssCacheAtT0, false) ∧
    (get_or_compute pssCacheAtT0 packageset_sources_ttl 3760 "noble/desktop"
        (fun _ => ["FRESH"])).1 = ["FRESH"] ∧
    (get_or_compute pssCacheAtT0 packageset_sources_ttl 3760 "noble/desktop"
        (fun _ => ["FRESH"])).2.2 = true := by
  refine ⟨?_, ?_, ?_, by decide, by decide, by decide, by decide⟩
  · intro v hv
    simp [get_or_compute, hv]
  · intro hv
    simp [get_or_compute, hv]
  · intro v tIns hl hle
    simp only [cacheLookup, hl]
    rw [if_neg (by omega)]

/-- Witness for C6: a live entry inserted at time 0, looked up at time
10, is returned without recomputation. -/
theorem C6_witness :
    get_or_compute [("k", (["v"], 0))] packageset_sources_ttl 10 "k"
        (fun _ => ["w"]) = (["v"], [("k", (["v"], 0))], false) :=
  (C6_cache_contract [("k", (["v"], 0))] packageset_sources_ttl 10 "k"
    (fun _ => ["w"])).1 ["v"] (by decide)

/-- Claim C7: for the series list \x5b"noble"\x5d a queue fetch always
produces exactly 10 entries — the 5 pockets crossed with the 2 statuses,
in the code's iteration order — whatever counts the remote returns
(zero-valued entries included), and the queue-count map is replaced
wholesale: the result does not depend on the previous map. -/
theorem C7_queue_completeness (queueLen : String → String → String → Nat)
    (old1 old2 : List ((String × String × String) × Nat)) :
    (fetch_queues ["noble"] queueLen).length = 10 ∧
    fetch_queues ["noble"] queueLen =
      [(("noble", "Release", "New"), queueLen "noble" "New" "Release"),
       (("noble", "Security", "New"), queueLen "noble" "New" "Security"),
       (("noble", "Updates", "New"), queueLen "noble" "New" "Updates"),
       (("noble", "Proposed", "New"), queueLen "noble" "New" "Proposed"),
       (("noble", "Backports", "New"), queueLen "noble" "New" "Backports"),
       (("noble", "Release", "Unapproved"),
         queueLen "noble" "Unapproved" "Release"),
       (("noble", "Security", "Unapproved"),
         queueLen "noble" "Unapproved" "Security"),
       (("noble", "Updates", "Unapproved"),
         queueLen "noble" "Unapproved" "Updates"),
       (("noble", "Proposed", "Unapproved"),
         queueLen "noble" "Unapproved" "Proposed"),
       (("noble", "Backports", "Unapproved"),
         queueLen "noble" "Unapproved" "Backports")] ∧
    (("noble", "Backports", "Unapproved"), 0) ∈
      fetch_queues ["noble"] (fun _ _ _ => 0) ∧
    fetch_queues_update old1 ["noble"] queueLen =
      fetch_queues_update old2 ["noble"] queueLen :=
  ⟨rfl, rfl, by decide, rfl⟩

/-- Claim C8: `get_failed_builds` keeps, per pocket, exactly the entries
whose state is "Failed to build"; and for two sources that both publish
amd64 in pocket Release, one "Failed to build" and one "Successfully
built", the aggregated failed-build counter at (Release, amd64) is
exactly 1. -/
theorem C8_failed_builds_filter_and_count :
    (∀ (bs : List (String × List (String × String × String))) (p : String),
      lookupS (get_failed_builds bs) p =
        (lookupS bs p).map
          (fun m => m.filter (fun e => decide (e.2.2 = "Failed to build")))) ∧
    failed_builds_count
      [[("Release", [("amd64", ("1.0", "Failed to build"))])],
       [("Release", [("amd64", ("2.0", "Successfully built"))])]]
      "Release" "amd64" = 1 := by
  refine ⟨fun bs p => ?_, by decide⟩
  induction bs with
  | nil => rfl
  | cons e rest ih =>
    by_cases h : e.1 = p
    · simp [get_failed_builds, lookupS, h]
    · simp only [get_failed_builds, List.map_cons, lookupS, if_neg h]
      exact ih

/-- Claim C9: `Metrics.__init__` invokes `UbuntuMetrics(log, series)`
with two positional arguments while `UbuntuMetrics.__init__` requires
three, so constructing the Metrics component always raises `TypeError`
at that call — before the `Service` and `Gauge` steps that would serve
any metric are reached. -/
theorem C9_metrics_init_type_error :
    run_init metrics_init_calls =
      Except.error "TypeError in call to UbuntuMetrics" := by
  rfl
